import Mathlib

/-!
Shallow embedding of the chunked textbook-generation service in `backend.py`
(FastAPI endpoint `POST /generate-textbook`): the Prompt Composer
`generate_chunked_prompt`, the word-count Convergence Loop and acceptance
check inside `generate_textbook`, and the whitespace word counting
`len(text.split())`.  Python strings are modelled as Lean `String`
(sequences of characters, `s.data : List Char`), Python `int` as `Nat`/`Int`.
The LLM provider `mistral_client.chat` and the PDF renderer `generate_pdf`
are external collaborators, modelled as function parameters.
-/

namespace Textbook

/-- Whitespace as recognised by Python `str.split()` with no arguments
(ASCII part: space, tab, newline, carriage return, vertical tab, form feed). -/
def pyIsSpace (c : Char) : Bool :=
  c = ' ' || c = '\t' || c = '\n' || c = '\r' || c = '\x0b' || c = '\x0c'

/-- Helper for `countWords`: counts maximal runs of non-whitespace characters,
`inWord` records whether the previous character was inside such a run. -/
def countWordsAux : Bool → List Char → Nat
  | _, [] => 0
  | inWord, c :: cs =>
    if pyIsSpace c then countWordsAux false cs
    else if inWord then countWordsAux true cs else 1 + countWordsAux true cs

/-- Embeds Python `len(text.split())`: the number of whitespace-delimited
tokens of a string (`str.split()` with no argument splits on runs of
whitespace and drops empty strings). -/
def countWords (s : String) : Nat :=
  countWordsAux false s.data

/-- Embeds the pydantic model `TextbookInput` (field values, without the
validation constraints; those are the predicate `ValidInput`). -/
structure TextbookInput where
  subject : String
  grade : Nat
  region : String
  chapters : List String
  sections_per_chapter : Nat
  prompt : String
  word_count : Nat
deriving DecidableEq

/-- Embeds the pydantic validation constraints on `TextbookInput`:
`constr(min_length=1, max_length=50)` on subject/region/chapters,
`conint(ge=1, le=12)` on grade, `conint(ge=1, le=10)` on
sections_per_chapter, `constr(min_length=10)` on prompt,
`conint(ge=500, le=20000)` on word_count. -/
def ValidInput (i : TextbookInput) : Prop :=
  1 ≤ i.subject.length ∧ i.subject.length ≤ 50 ∧
  1 ≤ i.grade ∧ i.grade ≤ 12 ∧
  1 ≤ i.region.length ∧ i.region.length ≤ 50 ∧
  (∀ c ∈ i.chapters, 1 ≤ c.length ∧ c.length ≤ 50) ∧
  1 ≤ i.sections_per_chapter ∧ i.sections_per_chapter ≤ 10 ∧
  10 ≤ i.prompt.length ∧
  500 ≤ i.word_count ∧ i.word_count ≤ 20000

instance (i : TextbookInput) : Decidable (ValidInput i) := by
  unfold ValidInput; infer_instance

/-- Embeds the Python slice `s[-n:]` (for `n > 0`): the suffix consisting of
the last `min n s.length` characters (Python clamps the negative start index
to 0 when `n` exceeds the length, yielding the whole string). -/
def pySliceLast (n : Nat) (s : String) : String :=
  ⟨s.data.drop (s.data.length - n)⟩

/-- Embeds the continuity-context expression of the chunk prompt,
`current_content[-5000:] if current_content else "No content yet"`
(the empty string is falsy in Python). -/
def contentExcerpt (current_content : String) : String :=
  if current_content = "" then "No content yet" else pySliceLast 5000 current_content

/-- Embeds `", ".join(chapters)`. -/
def joinChapters (chapters : List String) : String :=
  String.intercalate ", " chapters

/-- Embeds the body of the f-string `chunk_prompt` in
`generate_chunked_prompt` (`backend.py` lines 78-95), with the exact literal
text between the interpolated expressions. -/
def chunkPromptText (input : TextbookInput) (current_content : String)
    (current_count : Nat) (remaining_words : Int) : String :=
  "\n    Continue generating content for this " ++ input.subject ++
  " textbook.\n    Current word count: " ++ toString current_count ++ "/" ++
  toString input.word_count ++ "\n    Remaining words needed: " ++
  toString remaining_words ++
  "\n    \n    STRUCTURE:\n    Chapters: " ++ joinChapters input.chapters ++
  "\n    Sections per chapter: " ++ toString input.sections_per_chapter ++
  "\n    \n    CONTENT REQUIREMENTS:\n    1. Generate exactly " ++
  toString (min 2000 remaining_words) ++
  " words\n    2. Focus on sections with least content\n    3. Add detailed examples and analysis\n    4. Maintain consistent style\n    \n    CURRENT CONTENT:\n    " ++
  contentExcerpt current_content ++
  "\n    "

/-- Embeds `generate_chunked_prompt(input, current_content, current_count)`
(`backend.py` lines 73-96).  `remaining_words = input.word_count -
current_count` over Python ints, hence `Int`.  Note the early return on
`remaining_words <= 0` returns `("", current_count)` — the source returns
`current_count`, not `remaining_words`, in that branch. -/
def generate_chunked_prompt (input : TextbookInput) (current_content : String)
    (current_count : Nat) : String × Int :=
  let remaining_words : Int := (input.word_count : Int) - (current_count : Int)
  if remaining_words ≤ 0 then
    ("", (current_count : Int))
  else
    (chunkPromptText input current_content current_count remaining_words,
     remaining_words)

/-- Embeds the system-role message built in the loop body
(`backend.py` line 112): it reports the absolute target and the current
progress. -/
def system_message (input : TextbookInput) (progress : Nat) : String :=
  "You are writing a " ++ toString input.word_count ++
  "-word textbook. Current progress: " ++ toString progress ++ " words."

/-- The LLM provider capability (`mistral_client.chat`), an external
collaborator: it receives the system message content, the user message
content (the chunk prompt) and the `max_tokens` ceiling, and returns either
generated text or raises an exception carrying a message. -/
abbrev Provider : Type :=
  String → String → Nat → Except String String

/-- Embeds the value `max_attempts = 5` (`backend.py` line 105). -/
def max_attempts : Nat := 5

/-- Embeds the `while` loop of `generate_textbook` (`backend.py` lines
107-129).  `fuel` encodes the guard conjunct `attempts < max_attempts`
(invariant: `fuel = max_attempts - attempts`), the `if` encodes the guard
conjunct `len(textbook_content.split()) < input.word_count`; `attempts += 1`
precedes the provider call, so the attempt counter is threaded through and
also attached to the error outcome (the number of provider calls made when
the exception was raised — instrumentation only, the Python exception object carries
just the message).  The `break` at `current_count >= input.word_count`
re-tests exactly the first guard conjunct and is therefore subsumed by the
recursive re-entry into the guard. -/
def genLoopAux (input : TextbookInput) (provider : Provider) :
    Nat → String → Nat → Except (String × Nat) (String × Nat)
  | 0, textbook_content, attempts => .ok (textbook_content, attempts)
  | fuel + 1, textbook_content, attempts =>
    if countWords textbook_content < input.word_count then
      match provider (system_message input (countWords textbook_content))
          (generate_chunked_prompt input textbook_content
            (countWords textbook_content)).1 4000 with
      | .error e => .error (e, attempts + 1)
      | .ok new_content =>
        genLoopAux input provider fuel (textbook_content ++ "\n" ++ new_content)
          (attempts + 1)
    else .ok (textbook_content, attempts)

/-- The Convergence Loop run from its initial state `textbook_content = ""`,
`attempts = 0` (`backend.py` lines 103-129); returns the accumulated text and
the number of completed provider calls, or the first provider exception. -/
def run_loop (input : TextbookInput) (provider : Provider) :
    Except (String × Nat) (String × Nat) :=
  genLoopAux input provider max_attempts "" 0

/-- The JSON object returned on success (`backend.py` lines 139-143). -/
structure Response where
  textbook_content : String
  word_count : Nat
  pdf : String
deriving DecidableEq

/-- Embeds the detail string of the acceptance-check
`HTTPException(status_code=400, ...)` (`backend.py` line 134). -/
def accept_detail (input : TextbookInput) (final_word_count : Nat) : String :=
  "Failed to reach target word count. Requested: " ++ toString input.word_count ++
  ", Actual: " ++ toString final_word_count

/-- Embeds `str(e)` for a Starlette/FastAPI `HTTPException`
(`HTTPException.__str__` renders as `f"{status_code}: {detail}"`); this is
the message the catch-all `except Exception` handler re-raises with. -/
def http_exc_str (status : Nat) (detail : String) : String :=
  toString status ++ ": " ++ detail

/-- Embeds the acceptance predicate `final_word_count < 0.8 *
input.word_count` (`backend.py` line 133).  Python evaluates it in double
precision; for every integer pair in the validated range (`word_count` in
[500, 20000]) the double comparison agrees with the exact rational one,
which over integers is `5 * final < 4 * target`, so the embedding uses the
exact integer form. -/
def acceptance_fails (input : TextbookInput) (final_word_count : Nat) : Bool :=
  5 * final_word_count < 4 * input.word_count

/-- Embeds the endpoint `generate_textbook` (`backend.py` lines 98-147).
The whole body runs inside `try: ... except Exception as e: raise
HTTPException(status_code=500, detail=str(e))`.  Because the class FastAPI
`HTTPException` is a subclass of `Exception`, the acceptance-check
`HTTPException(400, ...)` raised on line 134 is itself caught by that
handler and re-raised as status 500 with detail `str(e)`; a provider
exception with message `m` is re-raised as status 500 with detail `m`.
The surfaced error is therefore always a `(500, detail)` pair.  `render`
is the external PDF renderer (`generate_pdf`), assumed total. -/
def generate_textbook (input : TextbookInput) (provider : Provider)
    (render : String → String) : Except (Nat × String) Response :=
  match run_loop input provider with
  | .error e => .error (500, e.1)
  | .ok r =>
    let final_word_count := countWords r.1
    if acceptance_fails input final_word_count then
      .error (500, http_exc_str 400 (accept_detail input final_word_count))
    else
      .ok ⟨r.1, final_word_count, render r.1⟩

/-- The append step of the loop (`textbook_content += "\n" + new_content`)
iterated over a whole list of chunks, starting from the initial empty
accumulated text. -/
def accumulateChunks (chunks : List String) : String :=
  chunks.foldl (fun acc c => acc ++ "\n" ++ c) ""

/-- A concrete text of exactly `n` whitespace-delimited tokens
(the single-letter word "a" repeated, each followed by a space). -/
def mkWords (n : Nat) : String :=
  ⟨(List.replicate n ['a', ' ']).flatten⟩

/-! Concrete fixtures used by counterexamples and witnesses. -/

/-- A concrete valid request with `word_count = 500`. -/
def input500 : TextbookInput :=
  ⟨"Mathematics", 5, "Bangladesh", ["Algebra"], 3, "Write clearly.", 500⟩

/-- A concrete valid request with `word_count = 1000`. -/
def input1000 : TextbookInput :=
  ⟨"Mathematics", 5, "Bangladesh", ["Algebra"], 3, "Write clearly.", 1000⟩

/-- A concrete valid request with `word_count = 5000`. -/
def input5000 : TextbookInput :=
  ⟨"Mathematics", 5, "Bangladesh", ["Algebra"], 3, "Write clearly.", 5000⟩

/-- A provider stub that always returns the empty string. -/
def providerEmpty : Provider := fun _ _ _ => .ok ""

/-- A provider stub that always returns exactly `n` words. -/
def providerWords (n : Nat) : Provider := fun _ _ _ => .ok (mkWords n)

/-- A provider stub that always raises an exception with message `msg`. -/
def providerFail (msg : String) : Provider := fun _ _ _ => .error msg

/-- A provider stub that returns exactly `n` words on the first call
(recognised by the zero-progress system message) and the empty string on
every later call. -/
def providerFirstWords (input : TextbookInput) (n : Nat) : Provider :=
  fun sys _ _ => if sys = system_message input 0 then .ok (mkWords n) else .ok ""

/-- The accumulated text after a run in which the first chunk has `n` words
and the four remaining attempts return empty chunks. -/
def contentAfter5 (n : Nat) : String :=
  (((("" ++ "\n" ++ mkWords n) ++ "\n" ++ "") ++ "\n" ++ "") ++ "\n" ++ "") ++ "\n" ++ ""

/-- The successful response for `input500` with a single 500-word chunk and
the identity renderer. -/
def res500 : Response :=
  ⟨"" ++ "\n" ++ mkWords 500, 500, "" ++ "\n" ++ mkWords 500⟩

/-- A concrete accumulated text of 6000 characters (no whitespace). -/
def bigContent : String := ⟨List.replicate 6000 'a'⟩

/-! Helper lemmas about `countWords` and the loop. -/

theorem data_append (a b : String) : (a ++ b).data = a.data ++ b.data := by
  cases a; cases b; rfl

theorem countWordsAux_append_nl (a : List Char) (b : Bool) (c : List Char) :
    countWordsAux b (a ++ '\n' :: c) = countWordsAux b a + countWordsAux false c := by
  induction a generalizing b with
  | nil => simp [countWordsAux, pyIsSpace]
  | cons x xs ih =>
    by_cases hx : pyIsSpace x
    · simp [countWordsAux, hx, ih]
    · cases b
      · simp [countWordsAux, hx, ih]; omega
      · simp [countWordsAux, hx, ih]

/-- Appending one chunk with its separating newline adds exactly the token count
of the chunk itself: the newline is whitespace, so no token merges or splits at
the boundary. -/
theorem countWords_append_chunk (a c : String) :
    countWords (a ++ "\n" ++ c) = countWords a + countWords c := by
  have h : (a ++ "\n" ++ c).data = a.data ++ '\n' :: c.data := by
    rw [data_append, data_append]
    have h2 : "\n".data = ['\n'] := rfl
    rw [h2, List.append_assoc]
    rfl
  unfold countWords
  rw [h, countWordsAux_append_nl]

theorem countWordsAux_word_space (rest : List Char) :
    countWordsAux false ('a' :: ' ' :: rest) = 1 + countWordsAux false rest := by
  simp [countWordsAux, pyIsSpace]

theorem countWords_mkWords (n : Nat) : countWords (mkWords n) = n := by
  unfold countWords mkWords
  induction n with
  | zero => rfl
  | succ k ih =>
    rw [List.replicate_succ, List.flatten_cons]
    rw [show ['a', ' '] ++ (List.replicate k ['a', ' ']).flatten
        = 'a' :: ' ' :: (List.replicate k ['a', ' ']).flatten from rfl]
    rw [countWordsAux_word_space, ih]
    omega

/-- Once the accumulated text meets the target, the loop guard fails and the
loop exits at once with the state unchanged: no further provider calls. -/
theorem genLoopAux_stop (input : TextbookInput) (provider : Provider)
    (fuel : Nat) (content : String) (attempts : Nat)
    (h : input.word_count ≤ countWords content) :
    genLoopAux input provider fuel content attempts = .ok (content, attempts) := by
  cases fuel with
  | zero => rfl
  | succ f => simp [genLoopAux, Nat.not_lt.mpr h]

/-- The attempt counter grows by at most `fuel` across a run of the loop,
whether it ends normally or in a provider exception. -/
theorem genLoopAux_attempts_le (input : TextbookInput) (provider : Provider)
    (fuel : Nat) (content : String) (attempts : Nat) :
    (∀ c a2, genLoopAux input provider fuel content attempts = .ok (c, a2) →
      a2 ≤ attempts + fuel) ∧
    (∀ e a2, genLoopAux input provider fuel content attempts = .error (e, a2) →
      a2 ≤ attempts + fuel) := by
  induction fuel generalizing content attempts with
  | zero =>
    constructor
    · intro c a2 h
      simp [genLoopAux] at h
      omega
    · intro e a2 h
      simp [genLoopAux] at h
  | succ f ih =>
    constructor
    · intro c a2 h
      rw [genLoopAux] at h
      by_cases hg : countWords content < input.word_count
      · rw [if_pos hg] at h
        cases hp : provider (system_message input (countWords content))
            (generate_chunked_prompt input content (countWords content)).1 4000 with
        | error e => rw [hp] at h; simp at h
        | ok nc =>
          rw [hp] at h
          have := (ih (content ++ "\n" ++ nc) (attempts + 1)).1 c a2 h
          omega
      · rw [if_neg hg] at h
        simp at h
        omega
    · intro e a2 h
      rw [genLoopAux] at h
      by_cases hg : countWords content < input.word_count
      · rw [if_pos hg] at h
        cases hp : provider (system_message input (countWords content))
            (generate_chunked_prompt input content (countWords content)).1 4000 with
        | error e0 =>
          rw [hp] at h
          simp at h
          omega
        | ok nc =>
          rw [hp] at h
          have := (ih (content ++ "\n" ++ nc) (attempts + 1)).2 e a2 h
          omega
      · rw [if_neg hg] at h
        simp at h

theorem genLoopAux_succ (input : TextbookInput) (provider : Provider) (fuel : Nat)
    (content : String) (attempts : Nat) :
    genLoopAux input provider (fuel + 1) content attempts =
      if countWords content < input.word_count then
        match provider (system_message input (countWords content))
            (generate_chunked_prompt input content (countWords content)).1 4000 with
        | .error e => .error (e, attempts + 1)
        | .ok new_content =>
          genLoopAux input provider fuel (content ++ "\n" ++ new_content) (attempts + 1)
      else .ok (content, attempts) := rfl

/-- A run whose very first chunk already meets the target: the loop makes
exactly one provider call and returns that single appended chunk. -/
theorem run_loop_first_chunk (input : TextbookInput) (provider : Provider) (c : String)
    (h0 : 0 < input.word_count)
    (hp : provider (system_message input 0) (generate_chunked_prompt input "" 0).1 4000 = .ok c)
    (hw : input.word_count ≤ countWords ("" ++ "\n" ++ c)) :
    run_loop input provider = .ok ("" ++ "\n" ++ c, 1) := by
  unfold run_loop max_attempts
  rw [show (5 : Nat) = 4 + 1 from rfl, genLoopAux_succ]
  have hz : countWords "" = 0 := rfl
  rw [hz, if_pos h0, hp]
  exact genLoopAux_stop input provider 4 ("" ++ "\n" ++ c) 1 hw

theorem countWords_append_empty (a : String) : countWords (a ++ "\n" ++ "") = countWords a := by
  rw [countWords_append_chunk]
  have hz : countWords "" = 0 := rfl
  omega

theorem genLoopAux_step_ok (input : TextbookInput) (provider : Provider) (fuel : Nat)
    (content : String) (attempts : Nat) (new_content : String)
    (hg : countWords content < input.word_count)
    (hp : provider (system_message input (countWords content))
        (generate_chunked_prompt input content (countWords content)).1 4000 =
        .ok new_content) :
    genLoopAux input provider (fuel + 1) content attempts =
      genLoopAux input provider fuel (content ++ "\n" ++ new_content) (attempts + 1) := by
  rw [genLoopAux_succ, if_pos hg, hp]

/-- Evaluates a full run of `providerFirstWords input n` when `0 < n <
target`: the first call contributes `n` words, the remaining four calls
contribute empty chunks, and the loop exhausts all five attempts. -/
theorem run_loop_first_then_empty (input : TextbookInput) (n : Nat)
    (h0 : 0 < n) (hn : n < input.word_count)
    (hne : system_message input n ≠ system_message input 0) :
    run_loop input (providerFirstWords input n) = .ok (contentAfter5 n, 5) := by
  have hz : countWords "" = 0 := rfl
  have hc1 : countWords ("" ++ "\n" ++ mkWords n) = n := by
    rw [countWords_append_chunk, countWords_mkWords, hz]
    omega
  have hc2 : countWords ("" ++ "\n" ++ mkWords n ++ "\n" ++ "") = n := by
    rw [countWords_append_empty, hc1]
  have hc3 : countWords ("" ++ "\n" ++ mkWords n ++ "\n" ++ "" ++ "\n" ++ "") = n := by
    rw [countWords_append_empty, hc2]
  have hc4 : countWords ("" ++ "\n" ++ mkWords n ++ "\n" ++ "" ++ "\n" ++ "" ++ "\n" ++ "") = n := by
    rw [countWords_append_empty, hc3]
  unfold run_loop max_attempts
  have s1 : genLoopAux input (providerFirstWords input n) 5 "" 0 =
      genLoopAux input (providerFirstWords input n) 4 ("" ++ "\n" ++ mkWords n) 1 := by
    apply genLoopAux_step_ok
    · rw [hz]
      omega
    · rw [hz]
      simp [providerFirstWords]
  have s2 : genLoopAux input (providerFirstWords input n) 4 ("" ++ "\n" ++ mkWords n) 1 =
      genLoopAux input (providerFirstWords input n) 3
        ("" ++ "\n" ++ mkWords n ++ "\n" ++ "") 2 := by
    apply genLoopAux_step_ok
    · rw [hc1]
      exact hn
    · rw [hc1]
      simp only [providerFirstWords]
      rw [if_neg hne]
  have s3 : genLoopAux input (providerFirstWords input n) 3
      ("" ++ "\n" ++ mkWords n ++ "\n" ++ "") 2 =
      genLoopAux input (providerFirstWords input n) 2
        ("" ++ "\n" ++ mkWords n ++ "\n" ++ "" ++ "\n" ++ "") 3 := by
    apply genLoopAux_step_ok
    · rw [hc2]
      exact hn
    · rw [hc2]
      simp only [providerFirstWords]
      rw [if_neg hne]
  have s4 : genLoopAux input (providerFirstWords input n) 2
      ("" ++ "\n" ++ mkWords n ++ "\n" ++ "" ++ "\n" ++ "") 3 =
      genLoopAux input (providerFirstWords input n) 1
        ("" ++ "\n" ++ mkWords n ++ "\n" ++ "" ++ "\n" ++ "" ++ "\n" ++ "") 4 := by
    apply genLoopAux_step_ok
    · rw [hc3]
      exact hn
    · rw [hc3]
      simp only [providerFirstWords]
      rw [if_neg hne]
  have s5 : genLoopAux input (providerFirstWords input n) 1
      ("" ++ "\n" ++ mkWords n ++ "\n" ++ "" ++ "\n" ++ "" ++ "\n" ++ "") 4 =
      genLoopAux input (providerFirstWords input n) 0
        ("" ++ "\n" ++ mkWords n ++ "\n" ++ "" ++ "\n" ++ "" ++ "\n" ++ "" ++ "\n" ++ "") 5 := by
    apply genLoopAux_step_ok
    · rw [hc4]
      exact hn
    · rw [hc4]
      simp only [providerFirstWords]
      rw [if_neg hne]
  rw [s1, s2, s3, s4, s5]
  rfl

theorem countWords_contentAfter5 (n : Nat) : countWords (contentAfter5 n) = n := by
  unfold contentAfter5
  rw [countWords_append_empty, countWords_append_empty, countWords_append_empty,
    countWords_append_empty, countWords_append_chunk, countWords_mkWords]
  have hz : countWords "" = 0 := rfl
  omega

/-- Unfolds the endpoint on a loop outcome that passes the acceptance check. -/
theorem generate_textbook_ok (input : TextbookInput) (provider : Provider)
    (render : String → String) (content : String) (att : Nat)
    (hr : run_loop input provider = .ok (content, att))
    (ha : acceptance_fails input (countWords content) = false) :
    generate_textbook input provider render =
      .ok ⟨content, countWords content, render content⟩ := by
  unfold generate_textbook
  rw [hr]
  simp [ha]

/-- Unfolds the endpoint on a loop outcome that fails the acceptance check. -/
theorem generate_textbook_reject (input : TextbookInput) (provider : Provider)
    (render : String → String) (content : String) (att : Nat)
    (hr : run_loop input provider = .ok (content, att))
    (ha : acceptance_fails input (countWords content) = true) :
    generate_textbook input provider render =
      .error (500, http_exc_str 400 (accept_detail input (countWords content))) := by
  unfold generate_textbook
  rw [hr]
  simp [ha]

theorem countWords_foldl (cs : List String) (a : String) :
    countWords (cs.foldl (fun acc c => acc ++ "\n" ++ c) a) =
      countWords a + (cs.map countWords).sum := by
  induction cs generalizing a with
  | nil => simp
  | cons x xs ih =>
    rw [List.foldl_cons, ih, countWords_append_chunk, List.map_cons, List.sum_cons]
    omega

theorem pySliceLast_data (n : Nat) (s : String) :
    (pySliceLast n s).data = s.data.drop (s.data.length - n) := rfl

theorem str_ext : ∀ (a b : String), a.data = b.data → a = b
  | ⟨_⟩, ⟨_⟩, rfl => rfl

theorem str_append_assoc (a b c : String) : a ++ b ++ c = a ++ (b ++ c) :=
  str_ext _ _ (by
    rw [data_append, data_append, data_append, data_append, List.append_assoc])

/-- Unfolds the Prompt Composer in the productive case
(`remaining_words > 0`). -/
theorem generate_chunked_prompt_pos (input : TextbookInput) (content : String)
    (count : Nat) (h : count < input.word_count) :
    generate_chunked_prompt input content count =
      (chunkPromptText input content count ((input.word_count : Int) - (count : Int)),
       (input.word_count : Int) - (count : Int)) := by
  have hneg : ¬ ((input.word_count : Int) - (count : Int) ≤ 0) := by omega
  unfold generate_chunked_prompt
  simp [hneg]

/-! Claim theorems. -/

/-- C1 counterexample: with `word_count = 500` and `current_count = 500`
(so `remainingWords = 0 <= 0`), `generate_chunked_prompt` does return an
empty prompt, but its second component is `current_count = 500`, not the
non-positive `remainingWords` value claimed. -/
theorem c1_counterexample :
    (generate_chunked_prompt input500 "" 500).1 = "" ∧
    (generate_chunked_prompt input500 "" 500).2 = 500 ∧
    ¬ (generate_chunked_prompt input500 "" 500).2 ≤ 0 := by
  refine ⟨rfl, rfl, by decide⟩

/-- C1 (amended): for every request and accumulated state with
`currentWordCount >= targetWordCount`, `generate_chunked_prompt` returns an
empty prompt together with `currentWordCount` (not `remainingWords`) as its
second component. -/
theorem c1_noop_returns_current_count (input : TextbookInput) (content : String)
    (count : Nat) (h : input.word_count ≤ count) :
    (generate_chunked_prompt input content count).1 = "" ∧
    (generate_chunked_prompt input content count).2 = (count : Int) := by
  unfold generate_chunked_prompt
  have hle : (input.word_count : Int) - (count : Int) ≤ 0 := by omega
  simp [hle]

/-- C1 witness: the amended statement at `input500`, `count = 600`. -/
theorem c1_noop_witness :
    (generate_chunked_prompt input500 "xyz" 600).1 = "" ∧
    (generate_chunked_prompt input500 "xyz" 600).2 = (600 : Int) :=
  c1_noop_returns_current_count input500 "xyz" 600 (by decide)

/-- C2 (code bug, evaluated at the failing input): with `word_count = 500`
and a provider always returning empty text, the final count 0 fails the
acceptance check and the endpoint raises `HTTPException(400, "Failed to
reach target word count. Requested: 500, Actual: 0")`; but the catch-all
`except Exception` swallows it and re-raises status 500, exactly the status
used for a generic provider failure — the acceptance error does identify
both counts in its detail text, yet it is not surfaced as a distinct error
(both paths yield status 500). -/
theorem c2_acceptance_error_same_status :
    generate_textbook input500 providerEmpty (fun s => s) =
      .error (500, http_exc_str 400 (accept_detail input500 0)) ∧
    generate_textbook input500 (providerFail "connection reset") (fun s => s) =
      .error (500, "connection reset") ∧
    (generate_textbook input500 providerEmpty (fun s => s)).isOk = false := by
  refine ⟨rfl, rfl, rfl⟩

/-- C4: for every valid request and every provider behaviour, the
Convergence Loop terminates (it is a total function) and makes at most
`max_attempts = 5` provider calls, whether it ends normally or in a provider
exception. -/
theorem c4_at_most_five_calls (input : TextbookInput) (provider : Provider)
    (_hv : ValidInput input) :
    (∀ content att, run_loop input provider = .ok (content, att) →
      att ≤ max_attempts) ∧
    (∀ e att, run_loop input provider = .error (e, att) → att ≤ max_attempts) := by
  refine ⟨fun c att h => ?_, fun e att h => ?_⟩
  · have := (genLoopAux_attempts_le input provider max_attempts "" 0).1 c att h
    omega
  · have := (genLoopAux_attempts_le input provider max_attempts "" 0).2 e att h
    omega

/-- C4 witness: the always-empty provider runs all five attempts on the
valid request `input500` and stops at exactly 5 calls. -/
theorem c4_witness :
    ValidInput input500 ∧
    run_loop input500 providerEmpty = .ok ("\n\n\n\n\n", 5) ∧
    5 ≤ max_attempts :=
  have hrun : run_loop input500 providerEmpty = .ok ("\n\n\n\n\n", 5) := rfl
  ⟨by decide, hrun,
    (c4_at_most_five_calls input500 providerEmpty (by decide)).1 "\n\n\n\n\n" 5 hrun⟩

/-- C5: once the accumulated text has reached the target word count, the
loop makes no further provider calls (its guard fails and the state is
returned unchanged from any reachable configuration); in particular, when
the first chunk alone reaches the target, the loop performs exactly one
provider call (attempt 1) and exits with that single appended chunk. -/
theorem c5_early_stop (input : TextbookInput) (provider : Provider) :
    (∀ fuel content attempts, input.word_count ≤ countWords content →
      genLoopAux input provider fuel content attempts = .ok (content, attempts)) ∧
    (∀ first_chunk : String, 0 < input.word_count →
      provider (system_message input 0) (generate_chunked_prompt input "" 0).1 4000 =
        .ok first_chunk →
      input.word_count ≤ countWords ("" ++ "\n" ++ first_chunk) →
      run_loop input provider = .ok ("" ++ "\n" ++ first_chunk, 1)) :=
  ⟨fun fuel content attempts h => genLoopAux_stop input provider fuel content attempts h,
   fun c h0 hp hw => run_loop_first_chunk input provider c h0 hp hw⟩

/-- C5 witness: a 500-word first chunk against `input500` stops after one
call, and a loop already at 700 words with budget left does not call again. -/
theorem c5_witness :
    run_loop input500 (providerWords 500) = .ok ("" ++ "\n" ++ mkWords 500, 1) ∧
    genLoopAux input500 providerEmpty 3 (mkWords 700) 2 = .ok (mkWords 700, 2) := by
  have hc : countWords ("" ++ "\n" ++ mkWords 500) = 500 := by
    rw [countWords_append_chunk, countWords_mkWords]
    decide
  refine ⟨(c5_early_stop input500 (providerWords 500)).2 (mkWords 500) (by decide) rfl
    (by rw [hc]; decide), ?_⟩
  exact (c5_early_stop input500 providerEmpty).1 3 (mkWords 700) 2
    (by rw [countWords_mkWords]; decide)

/-- C3: the acceptance check is the single decision applied to the final word count
of the loop after loop exit: a run whose final count is below 80% of
target surfaces as the rejection error naming both counts, and a run whose
final count is at or above 80% (including overshoot past 100%) returns the
accumulated text untruncated together with that count; concretely, for
target 1000 a run ending at 799 words is rejected while a run ending at 800
words succeeds. -/
theorem c3_acceptance_threshold :
    (∀ (input : TextbookInput) (provider : Provider) (render : String → String)
        (content : String) (att : Nat),
      run_loop input provider = .ok (content, att) →
      (acceptance_fails input (countWords content) = true →
        generate_textbook input provider render =
          .error (500, http_exc_str 400 (accept_detail input (countWords content)))) ∧
      (acceptance_fails input (countWords content) = false →
        generate_textbook input provider render =
          .ok ⟨content, countWords content, render content⟩)) ∧
    (∀ render : String → String,
      generate_textbook input1000 (providerFirstWords input1000 799) render =
        .error (500, http_exc_str 400 (accept_detail input1000 799))) ∧
    (∀ render : String → String,
      generate_textbook input1000 (providerFirstWords input1000 800) render =
        .ok ⟨contentAfter5 800, 800, render (contentAfter5 800)⟩) := by
  refine ⟨fun input provider render content att hr =>
    ⟨fun ha => generate_textbook_reject input provider render content att hr ha,
     fun ha => generate_textbook_ok input provider render content att hr ha⟩, ?_, ?_⟩
  · intro render
    have hrun := run_loop_first_then_empty input1000 799 (by decide) (by decide) (by decide)
    have hc : countWords (contentAfter5 799) = 799 := countWords_contentAfter5 799
    have ha : acceptance_fails input1000 (countWords (contentAfter5 799)) = true := by
      rw [hc]
      decide
    have h := generate_textbook_reject input1000 (providerFirstWords input1000 799) render
      (contentAfter5 799) 5 hrun ha
    rw [hc] at h
    exact h
  · intro render
    have hrun := run_loop_first_then_empty input1000 800 (by decide) (by decide) (by decide)
    have hc : countWords (contentAfter5 800) = 800 := countWords_contentAfter5 800
    have ha : acceptance_fails input1000 (countWords (contentAfter5 800)) = false := by
      rw [hc]
      decide
    have h := generate_textbook_ok input1000 (providerFirstWords input1000 800) render
      (contentAfter5 800) 5 hrun ha
    rw [hc] at h
    exact h

/-- C3 witness: the first (hypothesis-bearing) part at a concrete
successful run — one 500-word chunk against `input500`. -/
theorem c3_witness :
    run_loop input500 (providerWords 500) = .ok ("" ++ "\n" ++ mkWords 500, 1) ∧
    acceptance_fails input500 (countWords ("" ++ "\n" ++ mkWords 500)) = false ∧
    generate_textbook input500 (providerWords 500) (fun s => s) =
      .ok ⟨"" ++ "\n" ++ mkWords 500, countWords ("" ++ "\n" ++ mkWords 500),
        "" ++ "\n" ++ mkWords 500⟩ := by
  have hc : countWords ("" ++ "\n" ++ mkWords 500) = 500 := by
    rw [countWords_append_chunk, countWords_mkWords]
    decide
  have hrun : run_loop input500 (providerWords 500) = .ok ("" ++ "\n" ++ mkWords 500, 1) :=
    run_loop_first_chunk input500 (providerWords 500) (mkWords 500) (by decide) rfl
      (by rw [hc]; decide)
  have ha : acceptance_fails input500 (countWords ("" ++ "\n" ++ mkWords 500)) = false := by
    rw [hc]
    decide
  exact ⟨hrun, ha,
    (c3_acceptance_threshold.1 input500 (providerWords 500) (fun s => s)
      ("" ++ "\n" ++ mkWords 500) 1 hrun).2 ha⟩

/-- C8: `currentWordCount` is non-decreasing across every chunk append
`textbook_content += "\n" + new_content`, for every accumulated text and
every chunk, including the empty one. -/
theorem c8_word_count_monotone (textbook_content new_content : String) :
    countWords textbook_content ≤
      countWords (textbook_content ++ "\n" ++ new_content) := by
  rw [countWords_append_chunk]
  omega

/-- C9: because each chunk is appended behind a separating newline, token
counts add up: one append adds exactly the token count of the appended chunk, and the
accumulated text of any chunk sequence has word count equal to the sum of
the word counts of the chunks — no token merges or splits across boundaries. -/
theorem c9_word_count_additive :
    (∀ a c : String, countWords (a ++ "\n" ++ c) = countWords a + countWords c) ∧
    (∀ chunks : List String,
      countWords (accumulateChunks chunks) = (chunks.map countWords).sum) := by
  refine ⟨countWords_append_chunk, fun chunks => ?_⟩
  unfold accumulateChunks
  rw [countWords_foldl]
  have h0 : countWords "" = 0 := rfl
  rw [h0]
  omega

/-- C6: whenever words remain (`currentWordCount < targetWordCount`), the
composed chunk prompt carries the literal instruction to generate exactly
`min 2000 remainingWords` words for this chunk. -/
theorem c6_per_chunk_cap (input : TextbookInput) (content : String) (count : Nat)
    (h : count < input.word_count) :
    ∃ before after : String,
      (generate_chunked_prompt input content count).1 =
        before ++ ("Generate exactly " ++
          toString (min 2000 ((input.word_count : Int) - (count : Int))) ++ " words") ++
          after := by
  refine ⟨"\n    Continue generating content for this " ++ input.subject ++
    " textbook.\n    Current word count: " ++ toString count ++ "/" ++
    toString input.word_count ++ "\n    Remaining words needed: " ++
    toString ((input.word_count : Int) - (count : Int)) ++
    "\n    \n    STRUCTURE:\n    Chapters: " ++ joinChapters input.chapters ++
    "\n    Sections per chapter: " ++ toString input.sections_per_chapter ++
    "\n    \n    CONTENT REQUIREMENTS:\n    1. ",
    "\n    2. Focus on sections with least content\n    3. Add detailed examples and analysis\n    4. Maintain consistent style\n    \n    CURRENT CONTENT:\n    " ++
      contentExcerpt content ++ "\n    ", ?_⟩
  rw [generate_chunked_prompt_pos input content count h]
  show chunkPromptText input content count ((input.word_count : Int) - (count : Int)) = _
  unfold chunkPromptText
  apply str_ext
  simp only [data_append, List.append_assoc]
  rfl

/-- C6 witness: for target 5000 the first composed prompt requests exactly
2000 words, and at 4200 accumulated words it requests exactly 800. -/
theorem c6_witness :
    (∃ before after : String,
      (generate_chunked_prompt input5000 "" 0).1 =
        before ++ "Generate exactly 2000 words" ++ after) ∧
    (∃ before after : String,
      (generate_chunked_prompt input5000 "" 4200).1 =
        before ++ "Generate exactly 800 words" ++ after) := by
  constructor
  · obtain ⟨b, a, hset⟩ := c6_per_chunk_cap input5000 "" 0 (by decide)
    exact ⟨b, a, hset⟩
  · obtain ⟨b, a, hset⟩ := c6_per_chunk_cap input5000 "" 4200 (by decide)
    exact ⟨b, a, hset⟩

/-- C7: the continuity excerpt embedded in a composed prompt is exactly the
last `min 5000 length` characters of the accumulated text — a suffix whose
length never exceeds 5000 however long the text grows — and the explicit
marker "No content yet" replaces it when the accumulated text is empty. -/
theorem c7_context_window_bound (input : TextbookInput) (content : String) (count : Nat)
    (h : count < input.word_count) :
    (∃ before after : String,
      (generate_chunked_prompt input content count).1 =
        before ++ contentExcerpt content ++ after) ∧
    (content = "" → contentExcerpt content = "No content yet") ∧
    (content ≠ "" →
      contentExcerpt content = pySliceLast 5000 content ∧
      (contentExcerpt content).length = min 5000 content.length ∧
      (contentExcerpt content).length ≤ 5000 ∧
      ∃ front : List Char, content.data = front ++ (contentExcerpt content).data) := by
  refine ⟨⟨"\n    Continue generating content for this " ++ input.subject ++
    " textbook.\n    Current word count: " ++ toString count ++ "/" ++
    toString input.word_count ++ "\n    Remaining words needed: " ++
    toString ((input.word_count : Int) - (count : Int)) ++
    "\n    \n    STRUCTURE:\n    Chapters: " ++ joinChapters input.chapters ++
    "\n    Sections per chapter: " ++ toString input.sections_per_chapter ++
    "\n    \n    CONTENT REQUIREMENTS:\n    1. Generate exactly " ++
    toString (min 2000 ((input.word_count : Int) - (count : Int))) ++
    " words\n    2. Focus on sections with least content\n    3. Add detailed examples and analysis\n    4. Maintain consistent style\n    \n    CURRENT CONTENT:\n    ",
    "\n    ", by rw [generate_chunked_prompt_pos input content count h]; rfl⟩, ?_, ?_⟩
  · intro he
    subst he
    decide
  · intro hne
    have e1 : contentExcerpt content = pySliceLast 5000 content := by
      unfold contentExcerpt
      rw [if_neg hne]
    have e2 : (pySliceLast 5000 content).length =
        content.data.length - (content.data.length - 5000) := by
      show (content.data.drop (content.data.length - 5000)).length = _
      rw [List.length_drop]
    have hlen : content.length = content.data.length := rfl
    refine ⟨e1, ?_, ?_, ?_⟩
    · rw [e1, e2, hlen]
      omega
    · rw [e1, e2]
      omega
    · refine ⟨content.data.take (content.data.length - 5000), ?_⟩
      rw [e1, pySliceLast_data]
      exact (List.take_append_drop (content.data.length - 5000) content.data).symm

/-- C7 witness: a 6000-character accumulated text against `input500` — the
excerpt is its last 5000 characters. -/
theorem c7_witness :
    (∃ before after : String,
      (generate_chunked_prompt input500 bigContent 0).1 =
        before ++ contentExcerpt bigContent ++ after) ∧
    (bigContent = "" → contentExcerpt bigContent = "No content yet") ∧
    (bigContent ≠ "" →
      contentExcerpt bigContent = pySliceLast 5000 bigContent ∧
      (contentExcerpt bigContent).length = min 5000 bigContent.length ∧
      (contentExcerpt bigContent).length ≤ 5000 ∧
      ∃ front : List Char, bigContent.data = front ++ (contentExcerpt bigContent).data) :=
  c7_context_window_bound input500 bigContent 0 (by decide)

/-- C10: whenever the endpoint returns a success response, its `word_count`
field is exactly the whitespace-token count of its `textbook_content` field. -/
theorem c10_word_count_consistent (input : TextbookInput) (provider : Provider)
    (render : String → String) (res : Response)
    (h : generate_textbook input provider render = .ok res) :
    res.word_count = countWords res.textbook_content := by
  unfold generate_textbook at h
  cases hr : run_loop input provider with
  | error e => rw [hr] at h; simp at h
  | ok r =>
    rw [hr] at h
    cases hb : acceptance_fails input (countWords r.1) with
    | false =>
      simp [hb] at h
      rw [← h]
    | true => simp [hb] at h

/-- C10 witness: a concrete successful run (one 500-word chunk against
`input500`, identity renderer) whose response satisfies the consistency. -/
theorem c10_witness :
    generate_textbook input500 (providerWords 500) (fun s => s) = .ok res500 ∧
    res500.word_count = countWords res500.textbook_content := by
  have hc : countWords ("" ++ "\n" ++ mkWords 500) = 500 := by
    rw [countWords_append_chunk, countWords_mkWords]
    decide
  have hrun : run_loop input500 (providerWords 500) = .ok ("" ++ "\n" ++ mkWords 500, 1) :=
    run_loop_first_chunk input500 (providerWords 500) (mkWords 500) (by decide) rfl
      (by rw [hc]; decide)
  have ha : acceptance_fails input500 (countWords ("" ++ "\n" ++ mkWords 500)) = false := by
    rw [hc]; decide
  have h := generate_textbook_ok input500 (providerWords 500) (fun s => s)
    ("" ++ "\n" ++ mkWords 500) 1 hrun ha
  rw [hc] at h
  exact ⟨h, c10_word_count_consistent input500 (providerWords 500) (fun s => s) res500 h⟩

end Textbook
